import Mathlib

/-
Formal model of the kabu repository's financial-statement scripts.

The definitions below are shallow embeddings of the Python functions in
`src/scripts/main_new_break_stock.py`, `src/scripts/main_pre_break_stock.py`,
`src/scripts/test_09_stock_net_sales.py` and `src/scripts/stock_database.py`.
Modelling conventions, used throughout:

* Python floats are modelled as exact rationals (`ℚ`); `round(x, 1)` is
  modelled as decimal round-half-to-even to one decimal place.
* A dataframe is a list of rows, newest disclosure first, indexed
  positionally (the scripts sort by `DisclosedDate` descending and
  `reset_index(drop=True)` before these computations run, and the only
  row filter applied afterwards keeps a prefix of the sorted frame, so
  labels and positions agree).
* A cell that can be missing is a `FieldVal`: Python `None`, the empty
  string, the literal string `"N/A"`, a numeric value, or a non-numeric
  string on which `float()` raises.
-/

set_option maxRecDepth 8000

/-- A raw field value as the scripts see it: Python `None`, the empty
string `''`, the literal `'N/A'`, a numeric value (a number, or a numeric
string that `float()` accepts), or a non-numeric string on which `float()`
raises `ValueError`. -/
inductive FieldVal where
  | null : FieldVal
  | empty : FieldVal
  | na : FieldVal
  | num : ℚ → FieldVal
  | junk : FieldVal
  deriving DecidableEq

/-- The numeric-parsing idiom the scripts use:
`float(x) if x is not None and x != '' and x != 'N/A' else None`,
with a raising `float()` caught by the surrounding `try/except` and
treated the same way as a missing value.  At every call site in the
modelled functions the caught exception and the `None` result lead to
the same outcome, so both are mapped to `none` here. -/
def parseNum : FieldVal → Option ℚ
  | .num q => some q
  | _ => none

/-- Round a rational to the nearest integer, ties to the even integer
(the behaviour of Python's `round` on an exactly-representable value). -/
def roundHalfEven (q : ℚ) : ℤ :=
  let f := ⌊q⌋
  let r := q - f
  if r < 1/2 then f
  else if 1/2 < r then f + 1
  else if f % 2 = 0 then f else f + 1

/-- Python's `round(x, 1)`: round to one decimal place. -/
def round1 (q : ℚ) : ℚ := (roundHalfEven (q * 10) : ℚ) / 10

/-- A row of the dataframe handed to `_calculate_growth_rates` after
period reconstruction: the period type, the year of `DisclosedDate`
(`none` when the date is missing or its first four characters do not
parse as a year — both cases make the scripts skip the row), and the
two derived period-value columns. -/
structure PRow where
  typeOfCurrentPeriod : String
  disclosedYear : Option Int
  periodNetSales : Option ℚ
  periodProfit : Option ℚ
  deriving DecidableEq

/-- The scan `for i in range(current_index + 1, len(df))` inside
`_find_previous_year_same_period`: return the first row whose period
type equals `pt` and whose disclosure year equals `ty`; rows with a
missing or unparsable date are skipped (`continue`). -/
def findPrevYearScan (pt : String) (ty : Int) : List PRow → Option PRow
  | [] => none
  | r :: rest =>
    if r.typeOfCurrentPeriod = pt ∧ r.disclosedYear = some ty then some r
    else findPrevYearScan pt ty rest

/-- `_find_previous_year_same_period(df, current_index, period_type)`,
which appears verbatim in both `main_new_break_stock.py` (lines 724–760)
and `main_pre_break_stock.py` (lines 612–661): reject period types
outside `['1Q','2Q','3Q','FY']`; read the current row's disclosure year
(`None` or an unparsable date gives `None`); then scan the strictly
older rows `i+1..end` for the first row with the same period type and
the year before the current one. -/
def find_previous_year_same_period (df : List PRow) (i : Nat) (pt : String) :
    Option PRow :=
  if pt ∈ (["1Q", "2Q", "3Q", "FY"] : List String) then
    match df[i]? with
    | none => none
    | some cur =>
      match cur.disclosedYear with
      | none => none
      | some y => findPrevYearScan pt (y - 1) (df.drop (i + 1))
  else none

/-- The per-column body shared by the growth-rate loops: a rate is
produced only when the current and previous period values are both
present and both non-zero, and is then
`round(((current - previous) / abs(previous)) * 100, 1)`. -/
def yoyRate (cur prev : Option ℚ) : Option ℚ :=
  match cur, prev with
  | some c, some p =>
    if c ≠ 0 ∧ p ≠ 0 then some (round1 ((c - p) / |p| * 100)) else none
  | _, _ => none

/-- One iteration of the loop in `_calculate_growth_rates`
(`main_new_break_stock.py`, lines 682–722): the
`(SalesGrowthRate, ProfitGrowthRate)` pair for the row at index `i`.
Both columns are initialised to `None` and only overwritten when a
previous-year row of the same period type is found and the guard of
`yoyRate` holds; the `except` clause around the division is unreachable
because `previous != 0` has already been checked. -/
def NewBreak.growthRatesAt (df : List PRow) (i : Nat) : Option ℚ × Option ℚ :=
  match df[i]? with
  | none => (none, none)
  | some row =>
    match find_previous_year_same_period df i row.typeOfCurrentPeriod with
    | none => (none, none)
    | some prev =>
      (yoyRate row.periodNetSales prev.periodNetSales,
       yoyRate row.periodProfit prev.periodProfit)

/-- `_calculate_growth_rates(df)` (`main_new_break_stock.py`,
lines 682–722): the `(SalesGrowthRate, ProfitGrowthRate)` columns,
row by row. -/
def NewBreak.calculate_growth_rates (df : List PRow) :
    List (Option ℚ × Option ℚ) :=
  (List.range df.length).map (NewBreak.growthRatesAt df)

/-- The `data_type == 'sales'` branch of `_calculate_growth_rates`
(`main_pre_break_stock.py`, lines 663–719) at row `i`. -/
def PreBreak.salesGrowthRateAt (df : List PRow) (i : Nat) : Option ℚ :=
  match df[i]? with
  | none => none
  | some row =>
    match find_previous_year_same_period df i row.typeOfCurrentPeriod with
    | none => none
    | some prev => yoyRate row.periodNetSales prev.periodNetSales

/-- The `data_type == 'profit'` branch of `_calculate_growth_rates`
(`main_pre_break_stock.py`, lines 663–719) at row `i`. -/
def PreBreak.profitGrowthRateAt (df : List PRow) (i : Nat) : Option ℚ :=
  match df[i]? with
  | none => none
  | some row =>
    match find_previous_year_same_period df i row.typeOfCurrentPeriod with
    | none => none
    | some prev => yoyRate row.periodProfit prev.periodProfit

/-- The quarterly year-over-year rate exactly as claim C1 words it: the
rate is defined whenever both period values are present and the
*previous* one is non-zero — no condition on the current value.  Written
from the claim, for comparison with the code's `yoyRate`. -/
def specC1Rate (cur prev : Option ℚ) : Option ℚ :=
  match cur, prev with
  | some c, some p =>
    if p ≠ 0 then some (round1 ((c - p) / |p| * 100)) else none
  | _, _ => none

/-- `findPrevYearScan` is the first match of the corresponding predicate:
the loop in `_find_previous_year_same_period` returns the nearest
strictly-older row with the required period type and year. -/
theorem findPrevYearScan_eq_find (pt : String) (ty : Int) (l : List PRow) :
    findPrevYearScan pt ty l =
      l.find? (fun r => decide (r.typeOfCurrentPeriod = pt ∧ r.disclosedYear = some ty)) := by
  induction l with
  | nil => rfl
  | cons r rest ih =>
    by_cases h : r.typeOfCurrentPeriod = pt ∧ r.disclosedYear = some ty
    · simp [findPrevYearScan, List.find?, h]
    · simp [findPrevYearScan, List.find?, h, ih]

/-- Newest-first input on which claim C1's wording and the code diverge:
the 2024 `1Q` row has period values `0`, the 2023 `1Q` row has period
values `50`. -/
def dfC1 : List PRow :=
  [⟨"1Q", some 2024, some 0, some 0⟩, ⟨"1Q", some 2023, some 50, some 50⟩]

/-- Claim C1, counterexample: in `dfC1` the nearest prior-year same-period
row exists and its period values are present and non-zero (`50`), so the
claim promises the rate `(0 − 50) / |50| × 100 = −100.0`; the code instead
reports both rates for the newest row as undeterminable, because
`_calculate_growth_rates` also requires the *current* period value to be
non-zero. -/
theorem C1_counterexample :
    find_previous_year_same_period dfC1 0 "1Q" =
      some ⟨"1Q", some 2023, some 50, some 50⟩ ∧
    specC1Rate (some 0) (some 50) = some (-100) ∧
    NewBreak.calculate_growth_rates dfC1 = [(none, none), (none, none)] := by
  refine ⟨?_, ?_, ?_⟩
  · norm_num [dfC1, find_previous_year_same_period, findPrevYearScan]
  · norm_num [specC1Rate, round1, roundHalfEven]
  · norm_num [NewBreak.calculate_growth_rates, NewBreak.growthRatesAt, dfC1,
      find_previous_year_same_period, findPrevYearScan, yoyRate,
      List.range_succ]

/-- Claim C1 (amended): for a record with period type in
`{1Q, 2Q, 3Q, FY}` and disclosure year `y`, the quarterly YoY growth pair
is computed against the nearest strictly-older record with the same
period type and disclosure year `y − 1`; when such a record is found the
rate is `round(((current − previous) / abs(previous)) × 100, 1)` provided
both period values are present and **both are non-zero**, and in every
other case — no prior-year match, a missing value, a zero previous value,
or a zero current value — the rate is `none`, never `0` and never an
exception. -/
theorem C1_quarterly_yoy (df : List PRow) (i : Nat) (hi : i < df.length)
    (hpt : (df.get ⟨i, hi⟩).typeOfCurrentPeriod ∈ (["1Q", "2Q", "3Q", "FY"] : List String))
    (y : Int) (hy : (df.get ⟨i, hi⟩).disclosedYear = some y) :
    (NewBreak.calculate_growth_rates df)[i]? = some (
      match (df.drop (i + 1)).find? (fun r =>
          decide (r.typeOfCurrentPeriod = (df.get ⟨i, hi⟩).typeOfCurrentPeriod ∧
            r.disclosedYear = some (y - 1))) with
      | none => (none, none)
      | some prev =>
        (yoyRate (df.get ⟨i, hi⟩).periodNetSales prev.periodNetSales,
         yoyRate (df.get ⟨i, hi⟩).periodProfit prev.periodProfit)) := by
  have hget : df[i]? = some (df.get ⟨i, hi⟩) := by
    simp [List.getElem?_eq_getElem hi]
  have h1 : (List.range df.length)[i]? = some i := by
    simp [List.getElem?_range, hi]
  rw [NewBreak.calculate_growth_rates, List.getElem?_map, h1, Option.map_some']
  simp only [NewBreak.growthRatesAt, hget]
  unfold find_previous_year_same_period
  rw [if_pos hpt]
  simp only [hget, hy, findPrevYearScan_eq_find]

/-- Concrete newest-first input for the witness of `C1_quarterly_yoy`. -/
def dfC1w : List PRow :=
  [⟨"2Q", some 2024, some 120, some 60⟩, ⟨"2Q", some 2023, some 100, some 50⟩]

/-- Witness for `C1_quarterly_yoy`: on `dfC1w` the newest `2Q` row is
matched with the 2023 `2Q` row and gets sales growth
`(120 − 100)/100 × 100 = 20.0` and profit growth `(60 − 50)/50 × 100 = 20.0`. -/
theorem C1_witness :
    (NewBreak.calculate_growth_rates dfC1w)[0]? = some (some 20, some 20) := by
  have h := C1_quarterly_yoy dfC1w 0 (by norm_num [dfC1w])
    (by norm_num [dfC1w]) 2024 (by norm_num [dfC1w])
  rw [h]
  norm_num [dfC1w, yoyRate, round1, roundHalfEven]

/-- Claim C10: whenever a record's own (current) period value is `0`, the
corresponding quarterly YoY rate is `none` — in the sales and profit
columns of `main_new_break_stock.py` and in both single-column variants of
`main_pre_break_stock.py` — regardless of whether a prior-year record with
a present non-zero value exists. -/
theorem C10_zero_current_undeterminable (df : List PRow) (i : Nat)
    (hi : i < df.length) :
    ((df.get ⟨i, hi⟩).periodNetSales = some 0 →
      (NewBreak.calculate_growth_rates df)[i]?.map (fun pr => pr.1) = some none ∧
      PreBreak.salesGrowthRateAt df i = none) ∧
    ((df.get ⟨i, hi⟩).periodProfit = some 0 →
      (NewBreak.calculate_growth_rates df)[i]?.map (fun pr => pr.2) = some none ∧
      PreBreak.profitGrowthRateAt df i = none) := by
  have hget : df[i]? = some (df.get ⟨i, hi⟩) := by
    simp [List.getElem?_eq_getElem hi]
  have h1 : (List.range df.length)[i]? = some i := by
    simp [List.getElem?_range, hi]
  have hcal : (NewBreak.calculate_growth_rates df)[i]? =
      some (NewBreak.growthRatesAt df i) := by
    rw [NewBreak.calculate_growth_rates, List.getElem?_map, h1, Option.map_some']
  constructor
  · intro hzero
    rw [hcal]
    simp only [NewBreak.growthRatesAt, PreBreak.salesGrowthRateAt, hget, hzero,
      Option.map_some']
    cases find_previous_year_same_period df i
        (df.get ⟨i, hi⟩).typeOfCurrentPeriod with
    | none => simp
    | some prev =>
      cases hp : prev.periodNetSales <;> simp [yoyRate, hp]
  · intro hzero
    rw [hcal]
    simp only [NewBreak.growthRatesAt, PreBreak.profitGrowthRateAt, hget, hzero,
      Option.map_some']
    cases find_previous_year_same_period df i
        (df.get ⟨i, hi⟩).typeOfCurrentPeriod with
    | none => simp
    | some prev =>
      cases hp : prev.periodProfit <;> simp [yoyRate, hp]

/-- Concrete input for the witness of `C10_zero_current_undeterminable`:
the newest row has both period values `0` while the prior-year row has
present, non-zero values. -/
def dfC10 : List PRow :=
  [⟨"FY", some 2025, some 0, some 0⟩, ⟨"FY", some 2024, some 30, some 40⟩]

/-- Witness for `C10_zero_current_undeterminable` on `dfC10`. -/
theorem C10_witness :
    ((NewBreak.calculate_growth_rates dfC10)[0]?.map (fun pr => pr.1) = some none ∧
      PreBreak.salesGrowthRateAt dfC10 0 = none) ∧
    ((NewBreak.calculate_growth_rates dfC10)[0]?.map (fun pr => pr.2) = some none ∧
      PreBreak.profitGrowthRateAt dfC10 0 = none) := by
  have h := C10_zero_current_undeterminable dfC10 0 (by norm_num [dfC10])
  exact ⟨h.1 (by norm_num [dfC10]), h.2 (by norm_num [dfC10])⟩

/-- A row of the dataframe handed to `_calculate_period_values`
(`main_new_break_stock.py`, lines 586–634): the period type and the raw
cumulative `NetSales` and `OrdinaryProfit` cells. -/
structure SRow where
  typeOfCurrentPeriod : String
  netSales : FieldVal
  ordinaryProfit : FieldVal
  deriving DecidableEq

/-- The `if/elif` chain shared by `_find_previous_period_sales` and
`_find_previous_period_profit`: the predecessor period type of `2Q`,
`3Q`, `FY` is `1Q`, `2Q`, `3Q` respectively; any other period type makes
the lookup return `None` immediately. -/
def targetPeriod : String → Option String
  | "2Q" => some "1Q"
  | "3Q" => some "2Q"
  | "FY" => some "3Q"
  | _ => none

/-- The scan `for i in range(current_index + 1, len(df))` shared by
`_find_previous_period_sales` and `_find_previous_period_profit`
(`main_new_break_stock.py`, lines 636–680; the same loop appears in
`main_pre_break_stock.py`, lines 543–610, with the profit column as a
parameter): return the value of the first strictly-older row with the
target period type whose cell parses as a number; rows of the right type
with a missing or unparsable cell are skipped (`continue`). -/
def findPrevValScan (get : SRow → FieldVal) (target : String) :
    List SRow → Option ℚ
  | [] => none
  | r :: rest =>
    if r.typeOfCurrentPeriod = target then
      match parseNum (get r) with
      | some v => some v
      | none => findPrevValScan get target rest
    else findPrevValScan get target rest

/-- `_find_previous_period_sales(df, current_index, period_type)`
(`main_new_break_stock.py`, lines 636–657). -/
def find_previous_period_sales (df : List SRow) (i : Nat) (pt : String) :
    Option ℚ :=
  match targetPeriod pt with
  | none => none
  | some t => findPrevValScan (fun r => r.netSales) t (df.drop (i + 1))

/-- `_find_previous_period_profit(df, current_index, period_type)`
(`main_new_break_stock.py`, lines 659–680). -/
def find_previous_period_profit (df : List SRow) (i : Nat) (pt : String) :
    Option ℚ :=
  match targetPeriod pt with
  | none => none
  | some t => findPrevValScan (fun r => r.ordinaryProfit) t (df.drop (i + 1))

/-- The `PeriodNetSales` entry computed for row `i` by
`_calculate_period_values` (`main_new_break_stock.py`, lines 595–614):
`None` when the cumulative cell is missing or unparsable; otherwise the
cumulative value itself for `1Q`, and for any other period type the
cumulative value minus the found predecessor value, falling back to the
raw cumulative value when no predecessor is found. -/
def NewBreak.periodSalesAt (df : List SRow) (i : Nat) : Option ℚ :=
  match df[i]? with
  | none => none
  | some row =>
    match parseNum row.netSales with
    | none => none
    | some c =>
      if row.typeOfCurrentPeriod = "1Q" then some c
      else
        match find_previous_period_sales df i row.typeOfCurrentPeriod with
        | some p => some (c - p)
        | none => some c

/-- The `PeriodProfit` entry computed for row `i` by
`_calculate_period_values` (`main_new_break_stock.py`, lines 616–632),
which reads the `OrdinaryProfit` column. -/
def NewBreak.periodProfitAt (df : List SRow) (i : Nat) : Option ℚ :=
  match df[i]? with
  | none => none
  | some row =>
    match parseNum row.ordinaryProfit with
    | none => none
    | some c =>
      if row.typeOfCurrentPeriod = "1Q" then some c
      else
        match find_previous_period_profit df i row.typeOfCurrentPeriod with
        | some p => some (c - p)
        | none => some c

/-- `_calculate_period_values(df)` (`main_new_break_stock.py`,
lines 586–634): the `(PeriodNetSales, PeriodProfit)` columns, row by
row.  The loop reads only the original cumulative columns of `df`, so
row computations are independent of one another. -/
def NewBreak.calculate_period_values (df : List SRow) :
    List (Option ℚ × Option ℚ) :=
  (List.range df.length).map
    (fun i => (NewBreak.periodSalesAt df i, NewBreak.periodProfitAt df i))

/-- When every cell of the scanned column parses, the skipping scan of
`_find_previous_period_sales`/`_find_previous_period_profit` returns the
value of the first row with the target period type. -/
theorem findPrevValScan_eq_find (get : SRow → FieldVal) (t : String)
    (l : List SRow) (h : ∀ r ∈ l, (parseNum (get r)).isSome) :
    findPrevValScan get t l =
      (l.find? (fun r => decide (r.typeOfCurrentPeriod = t))).bind
        (fun r => parseNum (get r)) := by
  induction l with
  | nil => rfl
  | cons r rest ih =>
    have hr := h r (by simp)
    by_cases ht : r.typeOfCurrentPeriod = t
    · obtain ⟨v, hv⟩ := Option.isSome_iff_exists.mp hr
      simp [findPrevValScan, List.find?, ht, hv]
    · simp [findPrevValScan, List.find?, ht,
        ih (fun x hx => h x (by simp [hx]))]

/-- Claim C2: over a newest-first record list whose cumulative cells all
parse, a `1Q` record's period values are its cumulative values
unchanged, and a record whose period type has a predecessor (`2Q`, `3Q`,
`FY` → `1Q`, `2Q`, `3Q`) gets cumulative minus the cumulative value of
the first strictly-older record with the predecessor type, falling back
to the raw cumulative value when no such record exists. -/
theorem C2_period_reconstruction (df : List SRow)
    (hall : ∀ r ∈ df, (parseNum r.netSales).isSome ∧
      (parseNum r.ordinaryProfit).isSome)
    (i : Nat) (hi : i < df.length) :
    ((df.get ⟨i, hi⟩).typeOfCurrentPeriod = "1Q" →
      (NewBreak.calculate_period_values df)[i]? =
        some (parseNum (df.get ⟨i, hi⟩).netSales,
          parseNum (df.get ⟨i, hi⟩).ordinaryProfit)) ∧
    (∀ t, targetPeriod (df.get ⟨i, hi⟩).typeOfCurrentPeriod = some t →
      (NewBreak.calculate_period_values df)[i]? = some (
        (match (df.drop (i + 1)).find?
            (fun r => decide (r.typeOfCurrentPeriod = t)) with
         | some p => Option.map₂ (fun c q => c - q)
             (parseNum (df.get ⟨i, hi⟩).netSales) (parseNum p.netSales)
         | none => parseNum (df.get ⟨i, hi⟩).netSales),
        (match (df.drop (i + 1)).find?
            (fun r => decide (r.typeOfCurrentPeriod = t)) with
         | some p => Option.map₂ (fun c q => c - q)
             (parseNum (df.get ⟨i, hi⟩).ordinaryProfit)
             (parseNum p.ordinaryProfit)
         | none => parseNum (df.get ⟨i, hi⟩).ordinaryProfit))) := by
  have hget : df[i]? = some (df.get ⟨i, hi⟩) := by
    simp [List.getElem?_eq_getElem hi]
  have h1 : (List.range df.length)[i]? = some i := by
    simp [List.getElem?_range, hi]
  have hcal : (NewBreak.calculate_period_values df)[i]? =
      some (NewBreak.periodSalesAt df i, NewBreak.periodProfitAt df i) := by
    rw [NewBreak.calculate_period_values, List.getElem?_map, h1,
      Option.map_some']
  have hmem : df[i] ∈ df := List.getElem_mem hi
  obtain ⟨hs, hp⟩ := hall _ hmem
  obtain ⟨c, hc⟩ := Option.isSome_iff_exists.mp hs
  obtain ⟨cp, hcp⟩ := Option.isSome_iff_exists.mp hp
  constructor
  · intro h1q
    rw [List.get_eq_getElem] at h1q
    rw [hcal]
    simp only [NewBreak.periodSalesAt, NewBreak.periodProfitAt, hget, hc, hcp,
      List.get_eq_getElem, h1q, if_pos rfl]
    simp [hc, hcp]
  · intro t ht
    rw [List.get_eq_getElem] at ht
    have hne : df[i].typeOfCurrentPeriod ≠ "1Q" := by
      intro h1q
      rw [h1q] at ht
      simp [targetPeriod] at ht
    have hdropS : ∀ r ∈ df.drop (i + 1), (parseNum r.netSales).isSome :=
      fun r hr => (hall r (List.mem_of_mem_drop hr)).1
    have hdropP : ∀ r ∈ df.drop (i + 1), (parseNum r.ordinaryProfit).isSome :=
      fun r hr => (hall r (List.mem_of_mem_drop hr)).2
    rw [hcal]
    simp only [NewBreak.periodSalesAt, NewBreak.periodProfitAt, hget, hc, hcp,
      List.get_eq_getElem, if_neg hne, find_previous_period_sales,
      find_previous_period_profit, ht,
      findPrevValScan_eq_find _ _ _ hdropS, findPrevValScan_eq_find _ _ _ hdropP]
    cases hf : (df.drop (i + 1)).find?
        (fun r => decide (r.typeOfCurrentPeriod = t)) with
    | none => simp [hc, hcp]
    | some p =>
      have hpall := hall p (List.mem_of_mem_drop (List.mem_of_find?_eq_some hf))
      obtain ⟨q, hq⟩ := Option.isSome_iff_exists.mp hpall.1
      obtain ⟨q2, hq2⟩ := Option.isSome_iff_exists.mp hpall.2
      simp [hq, hq2, hc, hcp, Option.map₂]

/-- Concrete newest-first input for the witness of
`C2_period_reconstruction`: cumulative series `1Q=100`, `2Q=220`,
`3Q=300`, `FY=460` in both columns. -/
def dfC2w : List SRow :=
  [⟨"FY", .num 460, .num 460⟩, ⟨"3Q", .num 300, .num 300⟩,
   ⟨"2Q", .num 220, .num 220⟩, ⟨"1Q", .num 100, .num 100⟩]

/-- Witness for `C2_period_reconstruction`: the `FY` row of `dfC2w` gets
period value `460 − 300 = 160` in both columns. -/
theorem C2_witness :
    (NewBreak.calculate_period_values dfC2w)[0]? = some (some 160, some 160) := by
  have h := (C2_period_reconstruction dfC2w (by decide) 0 (by decide)).2
    "3Q" (by decide)
  rw [h]
  norm_num [dfC2w, parseNum, List.find?, Option.map₂]

/-- A row of the annual (`FY`, financial-statements) dataframe: the two
profit columns the growth computations read. -/
structure ARow where
  ordinaryProfit : FieldVal
  operatingProfit : FieldVal
  deriving DecidableEq

/-- `_determine_profit_type(df)` (`main_pre_break_stock.py`,
lines 429–468), the strict policy: `'ordinary'` for an empty frame, and
otherwise `'ordinary'` exactly when the number of rows with a parseable
`OrdinaryProfit` equals the number of rows.  The operating-profit count
computed by the loop is never read, so it is not modelled. -/
def PreBreak.determine_profit_type (df : List ARow) : String :=
  if df.isEmpty then "ordinary"
  else if df.countP (fun r => (parseNum r.ordinaryProfit).isSome) = df.length
  then "ordinary"
  else "operating"

/-- `determine_profit_type(df)` (`test_09_stock_net_sales.py`,
lines 146–185), the lenient policy: `'ordinary'` for an empty frame, and
otherwise `'ordinary'` exactly when at least one row has a parseable
`OrdinaryProfit`.  As in the strict variant, the operating-profit count
is computed but never read. -/
def Test09.determine_profit_type (df : List ARow) : String :=
  if df.isEmpty then "ordinary"
  else if 0 < df.countP (fun r => (parseNum r.ordinaryProfit).isSome)
  then "ordinary"
  else "operating"

/-- The body shared by the annual growth loops
(`main_new_break_stock.py`, lines 565–582, with the `OrdinaryProfit`
column; `main_pre_break_stock.py`, lines 393–413, with the selected
column): the rate between a row and the row after it, defined only when
both cells parse and the previous value is non-zero. -/
def annualPairRate (col : ARow → FieldVal) (cur prev : ARow) : Option ℚ :=
  match parseNum (col cur), parseNum (col prev) with
  | some c, some p =>
    if p ≠ 0 then some (round1 ((c - p) / |p| * 100)) else none
  | _, _ => none

/-- One iteration of `for i in range(len(df))` in the annual growth
loops: the last index always yields `None`; any other index compares the
row with the one following it. -/
def rateAtCol (col : ARow → FieldVal) (df : List ARow) (i : Nat) : Option ℚ :=
  if i = df.length - 1 then none
  else
    match df[i]?, df[i + 1]? with
    | some cur, some prev => annualPairRate col cur prev
    | _, _ => none

/-- `_calculate_annual_profit_growth_rates(df)`
(`main_new_break_stock.py`, lines 553–584): empty list for fewer than
two rows, otherwise one entry per row. -/
def NewBreak.calculate_annual_profit_growth_rates (df : List ARow) :
    List (Option ℚ) :=
  if df.isEmpty ∨ df.length < 2 then []
  else (List.range df.length).map (rateAtCol (fun r => r.ordinaryProfit) df)

/-- The 10-year-average block of `_calculate_financial_metrics`
(`main_new_break_stock.py`, lines 499–512): `None` for an empty annual
frame; otherwise the rates of the 10 most recent rows, and the rounded
mean of the defined ones (`None` when none is defined). -/
def NewBreak.annualProfitAvg10 (annual : List ARow) : Option ℚ :=
  if annual.isEmpty then none
  else
    let rates := NewBreak.calculate_annual_profit_growth_rates (annual.take 10)
    let valid := rates.filterMap id
    if valid.isEmpty then none
    else some (round1 (valid.sum / (valid.length : ℚ)))

/-- `calculate_profit_growth_10years` (`main_pre_break_stock.py`,
lines 338–427), starting from the already-filtered, newest-first annual
frame: `None` for fewer than two rows; otherwise take the 11 most recent
rows, select the profit column with the strict policy, run the same
positional growth loop, and return the **unrounded** mean of the defined
rates (`None` when none is defined). -/
def PreBreak.calculate_profit_growth_10years (annual : List ARow) : Option ℚ :=
  if annual.isEmpty ∨ annual.length < 2 then none
  else
    let df11 := annual.take 11
    if df11.length < 2 then none
    else
      let col : ARow → FieldVal :=
        if PreBreak.determine_profit_type df11 = "ordinary"
        then fun r => r.ordinaryProfit
        else fun r => r.operatingProfit
      let rates := (List.range df11.length).map (rateAtCol col df11)
      let valid := rates.filterMap id
      if valid.isEmpty then none
      else some (valid.sum / (valid.length : ℚ))

/-- The multi-year average exactly as claim C3 words it: rates over the
at most 10 most recent `FY` rows (ordinary profit), result the
*unrounded* arithmetic mean of the defined rates.  Written from the
claim, for comparison with the code. -/
def specC3Avg (annual : List ARow) : Option ℚ :=
  let xs := annual.take 10
  let valid := (xs.zipWith (annualPairRate (fun r => r.ordinaryProfit))
    xs.tail).filterMap id
  if valid.isEmpty then none
  else some (valid.sum / (valid.length : ℚ))

/-- Shifting the loop index by one strips the head row. -/
theorem rateAtCol_cons (col : ARow → FieldVal) (a : ARow) (l : List ARow)
    (j : Nat) : rateAtCol col (a :: l) (j + 1) = rateAtCol col l j := by
  cases l with
  | nil => cases j <;> simp [rateAtCol]
  | cons b rest =>
    have hiff : (j + 1 = (a :: b :: rest).length - 1) ↔
        (j = (b :: rest).length - 1) := by
      simp
    simp only [rateAtCol, List.getElem?_cons_succ]
    rw [if_congr hiff rfl rfl]

/-- The index loop of the annual growth computation equals the pairwise
zip of the frame with its own tail, followed by the `None` that the loop
appends at the oldest row. -/
theorem rates_loop_eq_zip (col : ARow → FieldVal) :
    ∀ (df : List ARow), 2 ≤ df.length →
      (List.range df.length).map (rateAtCol col df) =
        df.zipWith (annualPairRate col) df.tail ++ [none] := by
  intro df
  induction df with
  | nil => intro h; simp at h
  | cons a l ih =>
    intro h
    cases l with
    | nil => simp at h
    | cons b rest =>
      have hhead : rateAtCol col (a :: b :: rest) 0 = annualPairRate col a b := by
        simp [rateAtCol]
      have hmap : (List.range (b :: rest).length).map
          (fun j => rateAtCol col (a :: b :: rest) (j + 1)) =
          (List.range (b :: rest).length).map (rateAtCol col (b :: rest)) :=
        List.map_congr_left (fun j _ => rateAtCol_cons col a (b :: rest) j)
      rw [List.length_cons, List.range_succ_eq_map, List.map_cons, List.map_map]
      have hcomp : rateAtCol col (a :: b :: rest) ∘ Nat.succ =
          fun j => rateAtCol col (a :: b :: rest) (j + 1) := rfl
      rw [hcomp, hmap, hhead]
      cases rest with
      | nil => simp [rateAtCol, List.range_succ]
      | cons c rest2 =>
        rw [ih (by simp)]
        simp [List.zipWith]

/-- The defined annual rates are exactly the defined pairwise rates: the
final `None` the loop appends never survives the `valid` filter, and for
fewer than two rows both sides are empty. -/
theorem valid_rates_eq (df : List ARow) :
    (NewBreak.calculate_annual_profit_growth_rates df).filterMap id =
      (df.zipWith (annualPairRate fun r => r.ordinaryProfit)
        df.tail).filterMap id := by
  by_cases h2 : 2 ≤ df.length
  · have hni : df.isEmpty = false := by
      cases df with
      | nil => simp at h2
      | cons a l => rfl
    rw [NewBreak.calculate_annual_profit_growth_rates,
      if_neg (by simp [hni]; omega), rates_loop_eq_zip _ _ h2]
    simp
  · cases df with
    | nil => rfl
    | cons a l =>
      cases l with
      | nil => rfl
      | cons b rest => simp at h2

/-- Claim C3 (amended): the new-break variant averages the defined
pairwise rates of the 10 most recent annual rows (ordinary profit) and
**rounds the mean to one decimal**; the pre-break variant averages the
defined pairwise rates of the **11** most recent annual rows, over the
column chosen by the strict profit-type policy, and returns the mean
unrounded; both are `none` exactly when no rate is defined. -/
theorem C3_annual_average (annual : List ARow) :
    (NewBreak.annualProfitAvg10 annual =
      (let valid := ((annual.take 10).zipWith
          (annualPairRate fun r => r.ordinaryProfit)
          (annual.take 10).tail).filterMap id
       if valid.isEmpty then none
       else some (round1 (valid.sum / (valid.length : ℚ))))) ∧
    (PreBreak.calculate_profit_growth_10years annual =
      (let df11 := annual.take 11
       let col : ARow → FieldVal :=
         if PreBreak.determine_profit_type df11 = "ordinary"
         then fun r => r.ordinaryProfit
         else fun r => r.operatingProfit
       let valid := (df11.zipWith (annualPairRate col) df11.tail).filterMap id
       if valid.isEmpty then none
       else some (valid.sum / (valid.length : ℚ)))) := by
  constructor
  · by_cases h0 : annual = []
    · subst h0
      simp [NewBreak.annualProfitAvg10,
        NewBreak.calculate_annual_profit_growth_rates]
    · have h0' : annual.isEmpty = false := by simp [h0]
      simp only [NewBreak.annualProfitAvg10, h0', Bool.false_eq_true,
        if_false, valid_rates_eq]
  · by_cases h2 : 2 ≤ annual.length
    · have h11 : 2 ≤ (annual.take 11).length := by
        simp [List.length_take]
        omega
      have hni : annual.isEmpty = false := by
        cases annual with
        | nil => simp at h2
        | cons a l => rfl
      rw [PreBreak.calculate_profit_growth_10years,
        if_neg (by simp [hni]; omega)]
      simp only [if_neg (by omega : ¬ (annual.take 11).length < 2)]
      rw [rates_loop_eq_zip _ _ h11]
      simp
    · cases annual with
      | nil => rfl
      | cons a l =>
        cases l with
        | nil => rfl
        | cons b rest => simp at h2

/-- Annual frame (newest first, ordinary profits 1332, 1210, 1100, 1000)
whose pairwise rates are `[10.1, 10.0, 10.0, None]`. -/
def dfC3 : List ARow :=
  [⟨.num 1332, .null⟩, ⟨.num 1210, .null⟩, ⟨.num 1100, .null⟩,
   ⟨.num 1000, .null⟩]

/-- Claim C3, counterexample: on `dfC3` the defined rates are
`10.1, 10.0, 10.0`, whose arithmetic mean is `301/30 = 10.0333…`; the
code returns the mean rounded to one decimal, `10.0`, so the result is
not the arithmetic mean of the defined rates as the claim states. -/
theorem C3_counterexample :
    NewBreak.annualProfitAvg10 dfC3 = some 10 ∧
    specC3Avg dfC3 = some (301 / 30) ∧
    ((301 : ℚ) / 30) ≠ 10 := by
  refine ⟨?_, ?_, by norm_num⟩
  · norm_num [NewBreak.annualProfitAvg10,
      NewBreak.calculate_annual_profit_growth_rates, dfC3, rateAtCol,
      annualPairRate, parseNum, round1, roundHalfEven, List.range_succ,
      List.filterMap_cons, List.sum_cons]
  · norm_num [specC3Avg, dfC3, annualPairRate, parseNum, round1,
      roundHalfEven, List.filterMap_cons, List.sum_cons]

/-- Claim C4, counterexample: on the empty record set no record has a
parseable ordinary profit, yet the lenient policy of
`test_09_stock_net_sales.py` returns `'ordinary'` (its first branch),
where the claim requires `'operating'`. -/
theorem C4_counterexample :
    Test09.determine_profit_type ([] : List ARow) = "ordinary" ∧
    ¬ ∃ r ∈ ([] : List ARow), (parseNum r.ordinaryProfit).isSome := by
  exact ⟨rfl, by simp⟩

/-- Claim C4 (amended): the strict policy returns `'ordinary'` iff every
record's ordinary profit parses (vacuously for the empty set), otherwise
`'operating'`; the lenient policy returns `'ordinary'` iff at least one
record's ordinary profit parses **or the record set is empty**, and
`'operating'` otherwise. -/
theorem C4_profit_type_policies (df : List ARow) :
    (PreBreak.determine_profit_type df = "ordinary" ↔
      ∀ r ∈ df, (parseNum r.ordinaryProfit).isSome) ∧
    (PreBreak.determine_profit_type df = "operating" ↔
      ¬ ∀ r ∈ df, (parseNum r.ordinaryProfit).isSome) ∧
    (Test09.determine_profit_type df = "ordinary" ↔
      (df = [] ∨ ∃ r ∈ df, (parseNum r.ordinaryProfit).isSome)) ∧
    (Test09.determine_profit_type df = "operating" ↔
      ¬ (df = [] ∨ ∃ r ∈ df, (parseNum r.ordinaryProfit).isSome)) := by
  have hoo : ("operating" : String) ≠ "ordinary" := by decide
  by_cases h0 : df = []
  · subst h0
    refine ⟨by simp [PreBreak.determine_profit_type],
      by simp [PreBreak.determine_profit_type],
      by simp [Test09.determine_profit_type],
      by simp [Test09.determine_profit_type]⟩
  · have h0' : df.isEmpty = false := by simp [h0]
    refine ⟨?_, ?_, ?_, ?_⟩
    · simp only [PreBreak.determine_profit_type, h0', Bool.false_eq_true,
        if_false]
      split_ifs with hc
      · rw [List.countP_eq_length] at hc
        simpa using hc
      · rw [List.countP_eq_length] at hc
        simp only [iff_false_intro hc, iff_false]
        exact fun h => hoo h
    · simp only [PreBreak.determine_profit_type, h0', Bool.false_eq_true,
        if_false]
      split_ifs with hc
      · rw [List.countP_eq_length] at hc
        simp only [iff_true_intro hc, not_true, iff_false]
        intro h
        exact hoo h.symm
      · rw [List.countP_eq_length] at hc
        simpa using hc
    · simp only [Test09.determine_profit_type, h0', Bool.false_eq_true,
        if_false]
      split_ifs with hc
      · rw [List.countP_pos_iff] at hc
        simp [h0, hc]
      · rw [List.countP_pos_iff] at hc
        simp only [iff_false_intro hc, h0, false_or, iff_false]
        exact fun h => hoo h
    · simp only [Test09.determine_profit_type, h0', Bool.false_eq_true,
        if_false]
      split_ifs with hc
      · rw [List.countP_pos_iff] at hc
        simp only [h0, false_or, iff_true_intro hc, not_true, iff_false]
        intro h
        exact hoo h.symm
      · rw [List.countP_pos_iff] at hc
        simp [h0, hc]

/-- `_normalize_stock_code(code)` (`stock_database.py`, lines 76–93): a
falsy (empty) code is returned unchanged, a 4-character code gets `'0'`
appended, and anything else is returned as-is.  The function has no
failure path and raises nothing. -/
def StockDatabase.normalize_stock_code (code : String) : String :=
  if code = "" then code
  else if code.length = 4 then code ++ "0"
  else code

/-- `validate_stock_code(code)` (`stock_database.py`, lines 646–668):
`False` for a falsy code, for a length other than 4 or 5, or when some
character is not alphanumeric (Python `str.isalnum`, modelled over the
ASCII letters and digits the stock codes use); `True` otherwise.  It is
a separate static predicate: `_normalize_stock_code` never consults it. -/
def StockDatabase.validate_stock_code (code : String) : Bool :=
  if code = "" then false
  else if ¬ (code.length = 4 ∨ code.length = 5) then false
  else if ¬ (code.toList.all fun ch => ch.isAlphanum) then false
  else true

/-- Claim C5, counterexample: on the 3-character input `"123"` — not 4–5
characters, so the claim requires normalization to fail with
`InvalidSymbol` — `_normalize_stock_code` does not fail: it returns the
input unchanged (and the separate validator merely returns `False`). -/
theorem C5_counterexample :
    StockDatabase.normalize_stock_code "123" = "123" ∧
    StockDatabase.validate_stock_code "123" = false := by
  exact ⟨rfl, rfl⟩

/-- Claim C5 (amended): every 4-character code is right-padded with
`'0'` and every 5-character code passes through unchanged; for any other
input normalization does **not** fail — it returns the input unchanged —
while the separate `validate_stock_code` classifies such input (and any
input with a non-alphanumeric character) as invalid (`False`). -/
theorem C5_normalize (code : String) :
    (code.length = 4 → StockDatabase.normalize_stock_code code = code ++ "0") ∧
    (code.length = 5 → StockDatabase.normalize_stock_code code = code) ∧
    (¬ (code.length = 4 ∨ code.length = 5) ∨
        ¬ code.toList.all (fun ch => ch.isAlphanum) →
      StockDatabase.validate_stock_code code = false ∧
      StockDatabase.normalize_stock_code code =
        (if code.length = 4 then code ++ "0" else code)) := by
  refine ⟨?_, ?_, ?_⟩
  · intro h4
    have hne : code ≠ "" := by
      intro h
      rw [h] at h4
      simp at h4
    simp [StockDatabase.normalize_stock_code, hne, h4]
  · intro h5
    have hne : code ≠ "" := by
      intro h
      rw [h] at h5
      simp at h5
    have h4 : ¬ code.length = 4 := by omega
    simp [StockDatabase.normalize_stock_code, hne, h4]
  · intro h
    constructor
    · by_cases hemp : code = ""
      · simp [StockDatabase.validate_stock_code, hemp]
      · rcases h with ha | hb
        · simp [StockDatabase.validate_stock_code, hemp, ha]
        · by_cases hlen : code.length = 4 ∨ code.length = 5
          · simp [StockDatabase.validate_stock_code, hemp, hlen, hb]
            simpa using hb
          · simp [StockDatabase.validate_stock_code, hemp, hlen]
    · by_cases hemp : code = ""
      · subst hemp
        simp [StockDatabase.normalize_stock_code]
      · simp [StockDatabase.normalize_stock_code, hemp]

/-- Witness for `C5_normalize`: `"1301"` is padded to `"13010"`,
`"13010"` passes through, and the 3-character `"999"` is returned
unchanged while the validator rejects it. -/
theorem C5_witness :
    StockDatabase.normalize_stock_code "1301" = "13010" ∧
    StockDatabase.normalize_stock_code "13010" = "13010" ∧
    StockDatabase.validate_stock_code "999" = false ∧
    StockDatabase.normalize_stock_code "999" = "999" := by
  have h1 := (C5_normalize "1301").1 (by decide)
  have h2 := (C5_normalize "13010").2.1 (by decide)
  have h3 := (C5_normalize "999").2.2 (Or.inl (by decide))
  exact ⟨h1, h2, h3.1, by simpa using h3.2⟩

/-- A file-system micro-operation, at the granularity at which
`save_stock_data` touches the disk: opening a file in mode `'w'`
truncates it, `json.dump` then appends the serialized text, and a
rename (never performed by this code) would move a file. -/
inductive FsOp where
  | truncate (path : String)
  | writeChunk (path : String) (chunk : String)
  | rename (src dst : String)
  deriving DecidableEq

/-- The path an operation touches (for a rename, its source). -/
def FsOp.path : FsOp → String
  | .truncate p => p
  | .writeChunk p _ => p
  | .rename s _ => s

/-- Whether the operation is a rename. -/
def FsOp.isRename : FsOp → Bool
  | .rename _ _ => true
  | _ => false

/-- Effect of one micro-operation on a file system (a map from path to
file content). -/
def applyFsOp (fs : String → Option String) (op : FsOp) :
    String → Option String :=
  match op with
  | .truncate p => fun q => if q = p then some "" else fs q
  | .writeChunk p c => fun q => if q = p then some ((fs p).getD "" ++ c) else fs q
  | .rename src dst => fun q =>
      if q = dst then fs src else if q = src then none else fs q

/-- All file-system states reached while executing a trace, the initial
state included. -/
def traceStates (fs : String → Option String) :
    List FsOp → List (String → Option String)
  | [] => [fs]
  | op :: rest => fs :: traceStates (applyFsOp fs op) rest

/-- The destination path `f"{self.database_dir}/{normalized_code}.json"`
used by `save_stock_data` and `load_stock_data` (`stock_database.py`,
lines 191 and 260). -/
def StockDatabase.destPath (dir code : String) : String :=
  dir ++ "/" ++ StockDatabase.normalize_stock_code code ++ ".json"

/-- The I/O trace of `save_stock_data` (`stock_database.py`,
lines 180–245): the destination file itself is opened with
`open(filename, 'w', ...)` — a truncation — and the serialized JSON text
(`body`) is written into it by `json.dump`.  No temporary file is
created and no rename is performed anywhere in the function. -/
def StockDatabase.saveTrace (dir code body : String) : List FsOp :=
  [FsOp.truncate (StockDatabase.destPath dir code),
   FsOp.writeChunk (StockDatabase.destPath dir code) body]

/-- Atomicity as claim C6 words it: at every intermediate step of the
save, the destination holds either the old complete file or the new
complete file.  Written from the claim, for comparison with the code's
trace. -/
def atomicSave (fs0 : String → Option String) (ops : List FsOp)
    (dest body : String) : Prop :=
  ∀ s ∈ traceStates fs0 ops, s dest = fs0 dest ∨ s dest = some body

/-- Initial file system for the C6 counterexample: the destination
already holds a complete old file `"OLD"`. -/
def fsC6 : String → Option String :=
  fun q => if q = StockDatabase.destPath "db" "13010" then some "OLD" else none

/-- Claim C6, counterexample: saving `"NEW"` over an existing `"OLD"`
file is not atomic — right after the `open(..., 'w')` truncation the
destination holds the empty file, which is neither the old nor the new
complete content. -/
theorem C6_counterexample :
    ¬ atomicSave fsC6 (StockDatabase.saveTrace "db" "13010" "NEW")
      (StockDatabase.destPath "db" "13010") "NEW" := by
  intro h
  have hmem : applyFsOp fsC6
      (FsOp.truncate (StockDatabase.destPath "db" "13010")) ∈
      traceStates fsC6 (StockDatabase.saveTrace "db" "13010" "NEW") := by
    simp [StockDatabase.saveTrace, traceStates]
  have hc := h _ hmem
  simp [applyFsOp, fsC6] at hc

/-- Claim C6 (amended): `save_stock_data` writes the serialized record
set directly to the destination path — every operation of its trace
touches the destination itself and none is a rename — so while the final
state holds the complete new file, the intermediate state right after
the truncating `open` holds a file that is neither the old nor the new
complete content.  A crash between the truncation and the end of the
write leaves a partially-written destination. -/
theorem C6_direct_write (dir code body : String)
    (fs0 : String → Option String) (hbody : body ≠ "")
    (hold : fs0 (StockDatabase.destPath dir code) ≠ some "") :
    (∀ op ∈ StockDatabase.saveTrace dir code body,
      op.path = StockDatabase.destPath dir code ∧ op.isRename = false) ∧
    ((traceStates fs0 (StockDatabase.saveTrace dir code body)).getLast?).map
      (fun s => s (StockDatabase.destPath dir code)) = some (some body) ∧
    (∃ s ∈ traceStates fs0 (StockDatabase.saveTrace dir code body),
      s (StockDatabase.destPath dir code) ≠ fs0 (StockDatabase.destPath dir code) ∧
      s (StockDatabase.destPath dir code) ≠ some body) := by
  refine ⟨?_, ?_, ?_⟩
  · intro op hop
    simp only [StockDatabase.saveTrace, List.mem_cons, List.mem_singleton] at hop
    rcases hop with h | h | h
    · subst h
      exact ⟨rfl, rfl⟩
    · subst h
      exact ⟨rfl, rfl⟩
    · simp at h
  · simp only [StockDatabase.saveTrace, traceStates, List.getLast?]
    simp [applyFsOp]
  · refine ⟨applyFsOp fs0
      (FsOp.truncate (StockDatabase.destPath dir code)), ?_, ?_, ?_⟩
    · simp [StockDatabase.saveTrace, traceStates]
    · simp only [applyFsOp, if_pos rfl]
      exact fun hcontra => hold hcontra.symm
    · simp only [applyFsOp, if_pos rfl]
      intro hcontra
      exact hbody (by simpa using hcontra.symm)

/-- Witness for `C6_direct_write` at a concrete save: directory `"db"`,
code `"1301"`, body `"x"`, over an initially empty file system. -/
theorem C6_witness :
    (∀ op ∈ StockDatabase.saveTrace "db" "1301" "x",
      op.path = StockDatabase.destPath "db" "1301" ∧ op.isRename = false) ∧
    ((traceStates (fun _ => none) (StockDatabase.saveTrace "db" "1301" "x")).getLast?).map
      (fun s => s (StockDatabase.destPath "db" "1301")) = some (some "x") ∧
    (∃ s ∈ traceStates (fun _ => none) (StockDatabase.saveTrace "db" "1301" "x"),
      s (StockDatabase.destPath "db" "1301") ≠
        (fun (_ : String) => (none : Option String)) (StockDatabase.destPath "db" "1301") ∧
      s (StockDatabase.destPath "db" "1301") ≠ some "x") :=
  C6_direct_write "db" "1301" "x" (fun _ => none) (by decide) (by simp)

/-- A JSON-serializable scalar as it appears in a stored record file:
`null`, a string, or a number.  `json.dump` followed by `json.load`
is the identity on such values, so file content is modelled as the
structured data itself rather than as its serialized text. -/
inductive JVal where
  | null : JVal
  | str : String → JVal
  | num : ℚ → JVal
  deriving DecidableEq

/-- A dataframe cell as `_convert_dataframe_to_json_serializable` sees
it: a pandas missing value (`pd.isna`), a `pd.Timestamp`, or a plain
JSON-serializable scalar.  (The `isinstance(value, (pd.Int64Dtype,
pd.Float64Dtype))` branch of the source compares a value against dtype
classes and can never be taken; it is not modelled.) -/
inductive Cell where
  | nan : Cell
  | timestamp : String → Cell
  | plain : JVal → Cell
  deriving DecidableEq

/-- Whether a cell is a plain scalar. -/
def Cell.isPlain : Cell → Bool
  | .plain _ => true
  | _ => false

/-- The per-cell conversion of `_convert_dataframe_to_json_serializable`
(`stock_database.py`, lines 165–176): `pd.isna` values become `None`,
timestamps become their ISO string, everything else passes through. -/
def convertCell : Cell → JVal
  | .nan => .null
  | .timestamp iso => .str iso
  | .plain v => v

/-- One row of the dataframe converted to a JSON-serializable dict. -/
def convertRow (r : List (String × Cell)) : List (String × JVal) :=
  r.map (fun kv => (kv.1, convertCell kv.2))

/-- `_convert_dataframe_to_json_serializable(df)` (`stock_database.py`,
lines 143–178), DataFrame branch: every row becomes a dict of converted
cells (the empty frame becomes the empty list). -/
def convert_dataframe_to_json_serializable
    (df : List (List (String × Cell))) : List (List (String × JVal)) :=
  df.map convertRow

/-- The content of a stored record file: the metadata fields written by
`save_stock_data` for new data and the converted `raw_data` list. -/
structure StoredData where
  code : String
  originalCode : String
  retrievedDatetime : String
  dataCount : Nat
  apiSource : String
  fileCreated : String
  rawData : List (List (String × JVal))
  deriving DecidableEq

/-- `save_stock_data(code, financial_data)` (`stock_database.py`,
lines 180–245) for a DataFrame input: the destination file (named by the
normalized code) is replaced by fresh metadata — `code` normalized,
`original_code` as passed, both timestamp fields set to the present
moment `now`, `data_count` the number of rows, `api_source` the fixed
string — together with the converted rows.  File content is modelled
structurally (`json.dump`/`json.load` round-trip is the identity on
JSON-serializable data). -/
def StockDatabase.save_stock_data (dir : String)
    (fs : String → Option StoredData) (code : String)
    (df : List (List (String × Cell))) (now : String) :
    String → Option StoredData :=
  let stored : StoredData :=
    { code := StockDatabase.normalize_stock_code code
      originalCode := code
      retrievedDatetime := now
      dataCount := df.length
      apiSource := "J-Quants API"
      fileCreated := now
      rawData := convert_dataframe_to_json_serializable df }
  fun q => if q = StockDatabase.destPath dir code then some stored else fs q

/-- `load_stock_data(code)` (`stock_database.py`, lines 247–273): `None`
when the file named by the normalized code does not exist, the parsed
content otherwise. -/
def StockDatabase.load_stock_data (dir : String)
    (fs : String → Option StoredData) (code : String) : Option StoredData :=
  fs (StockDatabase.destPath dir code)

/-- Claim C7: saving a non-empty record set whose cells are plain
scalars and then loading the same symbol returns exactly the saved
records — re-wrapping each loaded scalar as a plain cell gives back the
input row list — with the record count and code metadata determined by
the input and only the two timestamp fields taken from the save time. -/
theorem C7_round_trip (dir code now : String)
    (fs : String → Option StoredData) (df : List (List (String × Cell)))
    (hne : df ≠ []) (hplain : ∀ row ∈ df, ∀ kv ∈ row, kv.2.isPlain) :
    ∃ stored,
      StockDatabase.load_stock_data dir
        (StockDatabase.save_stock_data dir fs code df now) code =
          some stored ∧
      stored.rawData.map (fun r => r.map (fun kv => (kv.1, Cell.plain kv.2))) = df ∧
      stored.dataCount = df.length ∧
      stored.code = StockDatabase.normalize_stock_code code ∧
      stored.originalCode = code ∧
      stored.apiSource = "J-Quants API" ∧
      stored.retrievedDatetime = now ∧
      stored.fileCreated = now := by
  refine ⟨{ code := StockDatabase.normalize_stock_code code
            originalCode := code
            retrievedDatetime := now
            dataCount := df.length
            apiSource := "J-Quants API"
            fileCreated := now
            rawData := convert_dataframe_to_json_serializable df },
    ?_, ?_, rfl, rfl, rfl, rfl, rfl, rfl⟩
  · simp [StockDatabase.load_stock_data, StockDatabase.save_stock_data]
  · show (convert_dataframe_to_json_serializable df).map
      (fun r => r.map (fun kv => (kv.1, Cell.plain kv.2))) = df
    rw [convert_dataframe_to_json_serializable, List.map_map]
    conv_rhs => rw [← List.map_id df]
    refine List.map_congr_left ?_
    intro row hrow
    show (convertRow row).map (fun kv => (kv.1, Cell.plain kv.2)) = row
    rw [convertRow, List.map_map]
    conv_rhs => rw [← List.map_id row]
    refine List.map_congr_left ?_
    intro kv hkv
    have hp := hplain row hrow kv hkv
    obtain ⟨k, v⟩ := kv
    cases v with
    | nan => simp [Cell.isPlain] at hp
    | timestamp iso => simp [Cell.isPlain] at hp
    | plain j => rfl

/-- Witness for `C7_round_trip`: a one-record set for code `"7203"`
stored and read back unchanged. -/
theorem C7_witness :
    ∃ stored,
      StockDatabase.load_stock_data "db"
        (StockDatabase.save_stock_data "db" (fun _ => none) "7203"
          [[("NetSales", Cell.plain (JVal.num 100))]] "t0") "7203" =
        some stored ∧
      stored.rawData.map (fun r => r.map (fun kv => (kv.1, Cell.plain kv.2))) =
        [[("NetSales", Cell.plain (JVal.num 100))]] ∧
      stored.dataCount = [[("NetSales", Cell.plain (JVal.num 100))]].length ∧
      stored.code = StockDatabase.normalize_stock_code "7203" ∧
      stored.originalCode = "7203" ∧
      stored.apiSource = "J-Quants API" ∧
      stored.retrievedDatetime = "t0" ∧
      stored.fileCreated = "t0" :=
  C7_round_trip "db" "7203" "t0" (fun _ => none)
    [[("NetSales", Cell.plain (JVal.num 100))]] (by simp)
    (by
      intro row hrow kv hkv
      simp at hrow
      subst hrow
      simp at hkv
      subst hkv
      rfl)

/-- The remote collaborator as the sync cycle sees it.  Dates are
abstract day numbers (the scripts' `YYYYMMDD` strings compare exactly
like the numbers they denote).  `byDate d` is
`client.get_fins_statements(date_yyyymmdd=d)` reduced to the `LocalCode`
column: a code list on success, an exception otherwise.  `fetch c` is
`client.get_fins_statements(code=c)` reduced to its row count (an
exception is a distinct outcome).  `listedSymbols` is the filtered
`client.get_listed_info()` code list. -/
structure SyncEnv where
  byDate : Nat → Except String (List String)
  fetch : String → Except String Nat
  listedSymbols : Except String (List String)

/-- `get_financial_statements_by_date(date)` (`stock_database.py`,
lines 908–927): any exception from the client is caught and an empty
frame is returned, so an erroring date contributes no codes. -/
def StockDatabase.get_financial_statements_by_date (env : SyncEnv)
    (d : Nat) : List String :=
  match env.byDate d with
  | .ok l => l
  | .error _ => []

/-- `collected_codes.update(codes)` on a Python `set`, modelled as an
order-preserving union without duplicates.  None of the modelled
observations (emptiness, membership, the resulting status file) depends
on the set's iteration order. -/
def unionDedup (acc codes : List String) : List String :=
  codes.foldl (fun a c => if c ∈ a then a else a ++ [c]) acc

/-- `_collect_stock_codes_from_dates(date_list)` (`stock_database.py`,
lines 929–944): per-date `try/except continue` — an error on one date is
logged and skipped (the callee above already catches everything, so the
outer handler is unreachable), and the codes of the remaining dates are
still collected. -/
def StockDatabase.collect_stock_codes_from_dates (env : SyncEnv)
    (dates : List Nat) : List String :=
  dates.foldl
    (fun acc d =>
      unionDedup acc (StockDatabase.get_financial_statements_by_date env d))
    []

/-- `_update_collected_stocks(stock_codes)` (`stock_database.py`,
lines 946–972): per-code fetch-and-save with `try/except continue`; the
count of codes whose fetch succeeded with a non-empty frame.  The
per-symbol record files it writes are not part of the freshness state
modelled here. -/
def StockDatabase.update_collected_stocks (env : SyncEnv)
    (codes : List String) : Nat :=
  codes.foldl
    (fun n c =>
      match env.fetch c with
      | .ok k => if 0 < k then n + 1 else n
      | .error _ => n)
    0

/-- `_generate_date_range(start_date, end_date)` (`stock_database.py`,
lines 891–906): the closed day interval `[start, end]`, empty when
`start > end`; a missing or unparsable start date raises inside the
`try` and the handler returns the empty list. -/
def StockDatabase.generate_date_range (startD : Option Nat) (endD : Nat) :
    List Nat :=
  match startD with
  | none => []
  | some s => if s ≤ endD then List.range' s (endD + 1 - s) else []

/-- The claim-relevant content of the persisted `update_info.txt`:
`processedDate` is the `処理日` line when present and parsable
(`_parse_status_file_content`, lines 757–793), `todayCount` the
`当日取得財務データ数` line when present.  A wholly unparsable file
parses to one with neither field. -/
structure StatusFile where
  processedDate : Option Nat
  todayCount : Option Nat
  deriving DecidableEq

/-- `_get_today_financial_data_count()` (`stock_database.py`,
lines 974–982): the size of today's disclosure frame, `0` on error or
when empty. -/
def StockDatabase.get_today_financial_data_count (env : SyncEnv)
    (today : Nat) : Nat :=
  (StockDatabase.get_financial_statements_by_date env today).length

/-- `_get_previous_data_count()` (`stock_database.py`, lines 984–991):
the stored `当日取得財務データ数`, defaulting to `0` when the status file
is absent or the line is missing. -/
def StockDatabase.get_previous_data_count (st : Option StatusFile) : Nat :=
  match st with
  | none => 0
  | some s => s.todayCount.getD 0

/-- `_check_same_day_updates(file_date, current_date)`
(`stock_database.py`, lines 993–1021). -/
def StockDatabase.check_same_day_updates (env : SyncEnv)
    (st : Option StatusFile) (fileDate : Option Nat) (today : Nat) : Bool :=
  if fileDate ≠ some today then false
  else
    let cur := StockDatabase.get_today_financial_data_count env today
    if cur = 0 then false
    else decide (StockDatabase.get_previous_data_count st < cur)

/-- `_perform_same_day_update(current_date)` (`stock_database.py`,
lines 1023–1059) together with `_save_same_day_status`
(lines 1061–1088), restricted to its effect on the persisted status
file: nothing is written when today's frame is empty; otherwise the
symbols are refetched and the status is rewritten with `処理日 = today`
and a freshly queried today-count. -/
def StockDatabase.perform_same_day_update (env : SyncEnv)
    (st : Option StatusFile) (today : Nat) : Option StatusFile :=
  let codes := StockDatabase.get_financial_statements_by_date env today
  if codes.isEmpty then st
  else
    some { processedDate := some today
           todayCount :=
             some (StockDatabase.get_today_financial_data_count env today) }

/-- `_perform_date_range_update(start_date, end_date)`
(`stock_database.py`, lines 859–889) together with
`_save_date_range_status` (lines 1090–1120), restricted to its effect on
the persisted status file: when the collected symbol set is empty the
function returns early and the status file is untouched; otherwise the
affected symbols are refetched and the status is rewritten with
`処理日 = today` (via `datetime.now()`) and a freshly queried
today-count. -/
def StockDatabase.perform_date_range_update (env : SyncEnv)
    (st : Option StatusFile) (startD : Option Nat) (today : Nat) :
    Option StatusFile :=
  let dates := StockDatabase.generate_date_range startD today
  let collected := StockDatabase.collect_stock_codes_from_dates env dates
  if collected.isEmpty then st
  else
    some { processedDate := some today
           todayCount :=
             some (StockDatabase.get_today_financial_data_count env today) }

/-- `_perform_full_force_update()` (`stock_database.py`, lines 843–857)
with `batch_get_market_stocks_data` (lines 424–528) and
`_save_batch_status` (lines 530–564), restricted to its effect on the
persisted status file: a failing or empty symbol-list query writes
nothing; otherwise the batch runs (errors capped by the ceiling) and the
status is rewritten with `処理日 = today`; the batch status format has no
`当日取得財務データ数` line. -/
def StockDatabase.perform_full_force_update (env : SyncEnv)
    (st : Option StatusFile) (today : Nat) : Option StatusFile :=
  match env.listedSymbols with
  | .error _ => st
  | .ok [] => st
  | .ok (_ :: _) => some { processedDate := some today, todayCount := none }

/-- `_check_and_update_database()` (`stock_database.py`, lines 670–703):
no status file → full forced resync; stored date equal to today → same
day resync when the disclosure count grew, otherwise nothing; any other
stored date (also a missing or unparsable one) → date-range resync over
`[stored, today]`. -/
def StockDatabase.check_and_update_database (env : SyncEnv)
    (st : Option StatusFile) (today : Nat) : Option StatusFile :=
  match st with
  | none => StockDatabase.perform_full_force_update env st today
  | some s =>
    if s.processedDate = some today then
      if StockDatabase.check_same_day_updates env st s.processedDate today
      then StockDatabase.perform_same_day_update env st today
      else st
    else StockDatabase.perform_date_range_update env st s.processedDate today

/-- Remote environment for the C8 counterexample: the disclosure query
for day 5 raises, day 6 returns one code, day 7 returns nothing. -/
def envC8 : SyncEnv where
  byDate := fun d =>
    if d = 5 then .error "HTTPError"
    else if d = 6 then .ok ["13010"]
    else .ok []
  fetch := fun _ => .ok 10
  listedSymbols := .ok []

/-- Stored freshness state for the C8 counterexample. -/
def stC8 : Option StatusFile := some { processedDate := some 5, todayCount := some 3 }

/-- Claim C8, counterexample: during the date-range resync `[5, 7]` the
per-date enumeration query for day 5 raises; the cycle does **not**
abort — the error is caught, day 5 is skipped, the symbol disclosed on
day 6 is still collected — and the persisted freshness state is
rewritten with `処理日 = 7`, so the next run will not retry the interval
starting at day 5. -/
theorem C8_counterexample :
    StockDatabase.check_and_update_database envC8 stC8 7 =
      some { processedDate := some 7, todayCount := some 0 } ∧
    StockDatabase.check_and_update_database envC8 stC8 7 ≠ stC8 := by
  exact ⟨by decide, by decide⟩

/-- Union keeps what the accumulator already holds. -/
theorem mem_unionDedup_left (c : String) :
    ∀ (codes acc : List String), c ∈ acc → c ∈ unionDedup acc codes := by
  intro codes
  induction codes with
  | nil => exact fun acc h => h
  | cons x xs ih =>
    intro acc h
    show c ∈ unionDedup (if x ∈ acc then acc else acc ++ [x]) xs
    apply ih
    by_cases hx : x ∈ acc
    · rwa [if_pos hx]
    · rw [if_neg hx]
      exact List.mem_append_left _ h

/-- Union absorbs the new codes. -/
theorem mem_unionDedup_right (c : String) :
    ∀ (codes acc : List String), c ∈ codes → c ∈ unionDedup acc codes := by
  intro codes
  induction codes with
  | nil => intro acc h; simp at h
  | cons x xs ih =>
    intro acc h
    show c ∈ unionDedup (if x ∈ acc then acc else acc ++ [x]) xs
    rcases List.mem_cons.mp h with rfl | hxs
    · apply mem_unionDedup_left
      by_cases hx : c ∈ acc
      · rwa [if_pos hx]
      · rw [if_neg hx]
        exact List.mem_append_right _ (by simp)
    · exact ih _ hxs

/-- The date fold keeps what the accumulator already holds. -/
theorem mem_collect_foldl (env : SyncEnv) (c : String) :
    ∀ (dates : List Nat) (acc : List String), c ∈ acc →
      c ∈ dates.foldl
        (fun a d =>
          unionDedup a (StockDatabase.get_financial_statements_by_date env d))
        acc := by
  intro dates
  induction dates with
  | nil => exact fun acc h => h
  | cons x xs ih => exact fun acc h => ih _ (mem_unionDedup_left c _ acc h)

/-- A code disclosed on any date of the interval survives into the
collected set, whatever happens on the other dates. -/
theorem mem_collect (env : SyncEnv) (c : String) :
    ∀ (dates : List Nat) (d : Nat), d ∈ dates →
      c ∈ StockDatabase.get_financial_statements_by_date env d →
      c ∈ StockDatabase.collect_stock_codes_from_dates env dates := by
  have key : ∀ (dates : List Nat) (acc : List String) (d : Nat), d ∈ dates →
      c ∈ StockDatabase.get_financial_statements_by_date env d →
      c ∈ dates.foldl
        (fun a dd =>
          unionDedup a (StockDatabase.get_financial_statements_by_date env dd))
        acc := by
    intro dates
    induction dates with
    | nil => intro acc d h; simp at h
    | cons x xs ih =>
      intro acc d hd hc
      rcases List.mem_cons.mp hd with rfl | hxs
      · exact mem_collect_foldl env c xs _ (mem_unionDedup_right c _ acc hc)
      · exact ih _ d hxs hc
  exact fun dates d hd hc => key dates [] d hd hc

/-- When every date of the interval contributes nothing, the collected
set is empty. -/
theorem collect_eq_nil (env : SyncEnv) :
    ∀ (dates : List Nat),
      (∀ d ∈ dates, StockDatabase.get_financial_statements_by_date env d = []) →
      StockDatabase.collect_stock_codes_from_dates env dates = [] := by
  have key : ∀ (dates : List Nat),
      (∀ d ∈ dates, StockDatabase.get_financial_statements_by_date env d = []) →
      ∀ acc, dates.foldl
        (fun a d =>
          unionDedup a (StockDatabase.get_financial_statements_by_date env d))
        acc = acc := by
    intro dates
    induction dates with
    | nil => intro _ acc; rfl
    | cons x xs ih =>
      intro h acc
      show xs.foldl _
        (unionDedup acc (StockDatabase.get_financial_statements_by_date env x)) = acc
      rw [h x (by simp)]
      exact ih (fun d hd => h d (by simp [hd])) acc
  exact fun dates h => key dates h []

/-- Claim C8 (amended): during a date-range resync an error in a
per-date disclosure query is caught and only that date is skipped; the
enumeration continues over the remaining dates.  The cycle ends with the
persisted freshness state untouched exactly when every date contributed
nothing; as soon as any date of the interval yields a symbol — even with
other dates erroring — the resync proceeds and the freshness state is
rewritten with the current date. -/
theorem C8_enumeration_errors (env : SyncEnv) (st : Option StatusFile)
    (startD : Option Nat) (today : Nat) :
    ((∀ d ∈ StockDatabase.generate_date_range startD today,
        StockDatabase.get_financial_statements_by_date env d = []) →
      StockDatabase.perform_date_range_update env st startD today = st) ∧
    (∀ (d : Nat) (c : String),
      d ∈ StockDatabase.generate_date_range startD today →
      c ∈ StockDatabase.get_financial_statements_by_date env d →
      StockDatabase.perform_date_range_update env st startD today =
        some { processedDate := some today
               todayCount :=
                 some (StockDatabase.get_today_financial_data_count env today) }) := by
  constructor
  · intro h
    rw [StockDatabase.perform_date_range_update]
    rw [collect_eq_nil env _ h]
    rfl
  · intro d c hd hc
    have hmem := mem_collect env c _ d hd hc
    have hne : (StockDatabase.collect_stock_codes_from_dates env
        (StockDatabase.generate_date_range startD today)).isEmpty = false := by
      cases hcol : StockDatabase.collect_stock_codes_from_dates env
          (StockDatabase.generate_date_range startD today) with
      | nil => rw [hcol] at hmem; simp at hmem
      | cons a l => rfl
    rw [StockDatabase.perform_date_range_update]
    simp only [hne, Bool.false_eq_true, if_false]

/-- Remote environment for the C8 witness: day 11 errors, every other
day discloses the single code `"86970"`. -/
def envC8w : SyncEnv where
  byDate := fun d => if d = 11 then .error "boom" else .ok ["86970"]
  fetch := fun _ => .ok 1
  listedSymbols := .ok []

/-- Witness for `C8_enumeration_errors`: resyncing `[10, 11]` with day
11 erroring still collects day 10's symbol and advances the stored date
to 11 (with a today-count of 0, day 11 being the erroring day). -/
theorem C8_witness :
    StockDatabase.perform_date_range_update envC8w
      (some ⟨some 10, none⟩) (some 10) 11 =
      some { processedDate := some 11, todayCount := some 0 } := by
  have h := (C8_enumeration_errors envC8w (some ⟨some 10, none⟩)
    (some 10) 11).2 10 "86970" (by decide) (by decide)
  simpa [StockDatabase.get_today_financial_data_count,
    StockDatabase.get_financial_statements_by_date, envC8w] using h

/-- Claim C9: across one startup-and-sync cycle the stored `処理日`
never decreases — whatever the remote behaves like, if the status file
held date `d` before the cycle and holds date `d'` after it, then
`d ≤ d'`.  (Every write stamps the current date; a stored future date
makes the generated interval empty, so nothing is written, and a stored
date equal to today is only ever overwritten with today itself.) -/
theorem C9_monotonic (env : SyncEnv) (st : Option StatusFile) (today : Nat)
    (s : StatusFile) (hst : st = some s) (d : Nat)
    (hd : s.processedDate = some d) (s' : StatusFile)
    (hres : StockDatabase.check_and_update_database env st today = some s')
    (d' : Nat) (hd' : s'.processedDate = some d') : d ≤ d' := by
  subst hst
  rw [StockDatabase.check_and_update_database] at hres
  by_cases heq : s.processedDate = some today
  · have hdt : d = today := by
      rw [hd] at heq
      exact Option.some.inj heq
    rw [if_pos heq] at hres
    by_cases hchk : StockDatabase.check_same_day_updates env (some s)
        s.processedDate today
    · rw [if_pos hchk, StockDatabase.perform_same_day_update] at hres
      by_cases hemp : (StockDatabase.get_financial_statements_by_date env
          today).isEmpty
      · simp only [hemp, if_true] at hres
        have : s = s' := Option.some.inj hres
        subst this
        rw [hd] at hd'
        have : d = d' := Option.some.inj hd'
        omega
      · simp only [hemp, Bool.false_eq_true, if_false] at hres
        have hs2 : s'.processedDate = some today := by
          rw [← Option.some.inj hres]
        rw [hs2] at hd'
        have : today = d' := Option.some.inj hd'
        omega
    · rw [if_neg hchk] at hres
      have : s = s' := Option.some.inj hres
      subst this
      rw [hd] at hd'
      have : d = d' := Option.some.inj hd'
      omega
  · rw [if_neg heq, hd, StockDatabase.perform_date_range_update] at hres
    by_cases hemp : (StockDatabase.collect_stock_codes_from_dates env
        (StockDatabase.generate_date_range (some d) today)).isEmpty
    · simp only [hemp, if_true] at hres
      have : s = s' := Option.some.inj hres
      subst this
      rw [hd] at hd'
      have : d = d' := Option.some.inj hd'
      omega
    · by_cases hdt : d ≤ today
      · simp only [hemp, Bool.false_eq_true, if_false] at hres
        have hs2 : s'.processedDate = some today := by
          rw [← Option.some.inj hres]
        rw [hs2] at hd'
        have : today = d' := Option.some.inj hd'
        omega
      · exfalso
        have hgen : StockDatabase.generate_date_range (some d) today = [] := by
          simp [StockDatabase.generate_date_range, hdt]
        rw [hgen] at hemp
        exact hemp (by rfl)

/-- Remote environment for the C9 witness: every day discloses the
single code `"13010"`. -/
def envC9w : SyncEnv where
  byDate := fun _ => .ok ["13010"]
  fetch := fun _ => .ok 3
  listedSymbols := .ok []

/-- Witness for `C9_monotonic`: starting from a stored `処理日` of day 5
on day 7, the cycle performs the `[5, 7]` date-range resync and rewrites
the status with day 7, and `5 ≤ 7`. -/
theorem C9_witness :
    StockDatabase.check_and_update_database envC9w
      (some ⟨some 5, some 0⟩) 7 = some ⟨some 7, some 1⟩ ∧ (5 : Nat) ≤ 7 :=
  ⟨by decide,
    C9_monotonic envC9w (some ⟨some 5, some 0⟩) 7 ⟨some 5, some 0⟩ rfl 5 rfl
      ⟨some 7, some 1⟩ (by decide) 7 rfl⟩
